import Mathlib

/-!
# Verification of the `react-native-easy-tooltip` placement engine and visibility controller

Shallow embedding of the library's source:

* `src/getTooltipCoordinate.ts` — the placement engine (`convertDimensionToNumber`,
  `getPointDistance`, `getArea`, quadrant-area construction, the stable descending
  sort of the four quadrant areas, the displacement step and `constraintX`);
* `src/Tooltip.tsx` — `toggleTooltip` (the visibility controller's trigger
  operation) and `getTooltipStyle` (RTL mirroring, `pastMiddleLine`, the
  top/bottom anchoring branches);
* `src/helpers.ts` — the platform flag `isIOS` and `statusBarOffset` are modelled
  as explicit boolean / rational parameters.

JavaScript numbers are embedded as rationals (`ℚ`); the arithmetic of the source
is exact on the inputs considered here.  `NaN` is modelled by `Option`: the JS
`Number()` builtin is embedded as `jsNumber : String → Option ℚ` with `none`
standing for `NaN`, and `convertDimensionToNumber` propagates it.
-/

namespace EasyTooltip

/-! ## Dimensions and the JS `Number()` builtin -/

/-- A `width`/`height` configuration value: a JS `number | string`.  Strings are
embedded as their character lists. -/
inductive Dim where
  | num (v : ℚ)
  | str (s : List Char)
deriving DecidableEq

/-- Fold a digit list into the natural number it denotes (most significant first). -/
def digitsToNat (l : List Char) : ℕ :=
  l.foldl (fun n c => 10 * n + (c.toNat - Char.toNat '0')) 0

/-- Split a character list at the first `'.'`; no dot yields an empty second part. -/
def splitAtDot : List Char → List Char × List Char
  | [] => ([], [])
  | c :: rest =>
    if c = '.' then ([], rest)
    else
      let p := splitAtDot rest
      (c :: p.1, p.2)

/-- Strip a leading sign, returning the sign factor and the remaining characters. -/
def signSplit : List Char → ℚ × List Char
  | '-' :: r => (-1, r)
  | '+' :: r => (1, r)
  | r => (1, r)

/-- Whitespace trimming of a character list, as JS `Number()` applies. -/
def trimChars (s : List Char) : List Char :=
  ((s.dropWhile Char.isWhitespace).reverse.dropWhile Char.isWhitespace).reverse

/-- Models the JS `Number()` builtin on the plain decimal strings that reach
`convertDimensionToNumber` (trimmed optional sign, digits, optional single dot;
the empty string is `0`).  `none` models `NaN`; exponent/hex forms are outside
the inputs considered here and also map to `none`. -/
def jsNumber (s : List Char) : Option ℚ :=
  let t := trimChars s
  if t.isEmpty then some 0
  else
    let sb := signSplit t
    let p := splitAtDot sb.2
    if p.1.all Char.isDigit && p.2.all Char.isDigit && !(p.1.isEmpty && p.2.isEmpty) then
      some (sb.1 * ((digitsToNat p.1 : ℚ) + (digitsToNat p.2 : ℚ) / 10 ^ p.2.length))
    else
      none

/-- Remove the first occurrence of a character, as `String.replace(/%/, '')` does. -/
def removeFirstChar (c : Char) : List Char → List Char
  | [] => []
  | a :: rest => if a = c then rest else a :: removeFirstChar c rest

/-- Embeds `convertDimensionToNumber` from `getTooltipCoordinate.ts`: a percentage
string is parsed, divided by 100 and scaled by the screen dimension; a number is
returned as-is; any other string goes through `Number()`.  `none` models the
`NaN` the source produces on malformed strings. -/
def convertDimensionToNumber (dimension : Dim) (screenDimension : ℚ) : Option ℚ :=
  match dimension with
  | .str s =>
    if s.contains '%' then
      (jsNumber (removeFirstChar '%' s)).map
        (fun decimal => decimal / 100 * screenDimension)
    else jsNumber s
  | .num v => some v

/-! ## Distances, areas and quadrant selection -/

/-- Embeds `getArea` from `getTooltipCoordinate.ts`. -/
def getArea (a b : ℚ) : ℚ := a * b

/-- Embeds `getPointDistance` from `getTooltipCoordinate.ts`.  Every call site
passes two points sharing a coordinate, where the source's Euclidean distance
`Math.sqrt((a₀−b₀)² + (a₁−b₁)²)` equals `|a₀−b₀| + |a₁−b₁|` exactly (one summand
vanishes); `getPointDistance_eq_euclid` certifies the agreement. -/
def getPointDistance (a b : ℚ × ℚ) : ℚ :=
  |a.1 - b.1| + |a.2 - b.2|

/-- The genuine Euclidean distance of the source's `getPointDistance`. -/
noncomputable def euclid (a b : ℚ × ℚ) : ℝ :=
  Real.sqrt (((a.1 : ℝ) - (b.1 : ℝ)) ^ 2 + ((a.2 : ℝ) - (b.2 : ℝ)) ^ 2)

/-- On point pairs sharing a coordinate — which covers every call the source
makes — the embedded `getPointDistance` coincides with the Euclidean distance. -/
theorem getPointDistance_eq_euclid (a b : ℚ × ℚ) (h : a.1 = b.1 ∨ a.2 = b.2) :
    ((getPointDistance a b : ℚ) : ℝ) = euclid a b := by
  rcases h with h | h
  · simp only [getPointDistance, euclid, h, sub_self, ne_eq, zero_pow, OfNat.ofNat_ne_zero,
      not_false_eq_true, zero_add, abs_zero]
    rw [Real.sqrt_sq_eq_abs]
    push_cast
    simp
  · simp only [getPointDistance, euclid, h, sub_self, ne_eq, zero_pow, OfNat.ofNat_ne_zero,
      not_false_eq_true, add_zero, abs_zero]
    rw [Real.sqrt_sq_eq_abs]
    push_cast
    simp

/-- An entry of the `areas` array: `{area, id}` in the source. -/
structure AreaEntry where
  area : ℚ
  id : ℕ
deriving DecidableEq

/-- The `areas` array of `getTooltipCoordinate`: the four quadrant areas
`[vOne·vFour, vOne·vTwo, vTwo·vThree, vThree·vFour]` tagged with their indices. -/
def quadrantAreas (x y width height screenWidth screenHeight : ℚ) : List AreaEntry :=
  let center : ℚ × ℚ := (x + width / 2, y + height / 2)
  let pOne : ℚ × ℚ := (center.1, 0)
  let pTwo : ℚ × ℚ := (screenWidth, center.2)
  let pThree : ℚ × ℚ := (center.1, screenHeight)
  let pFour : ℚ × ℚ := (0, center.2)
  let vOne := getPointDistance center pOne
  let vTwo := getPointDistance center pTwo
  let vThree := getPointDistance center pThree
  let vFour := getPointDistance center pFour
  [⟨getArea vOne vFour, 0⟩, ⟨getArea vOne vTwo, 1⟩,
    ⟨getArea vTwo vThree, 2⟩, ⟨getArea vThree vFour, 3⟩]

/-- Stable descending insertion: an element is placed before the first strictly
smaller entry, keeping original order on ties. -/
def insertByAreaDesc (e : AreaEntry) : List AreaEntry → List AreaEntry
  | [] => [e]
  | f :: rest => if f.area ≤ e.area then e :: f :: rest else f :: insertByAreaDesc e rest

/-- Embeds `areas.sort((a, b) => b.area - a.area)`: a stable sort into descending
area order (`Array.prototype.sort` is stable per ES2019). -/
def sortByAreaDesc : List AreaEntry → List AreaEntry
  | [] => []
  | e :: rest => insertByAreaDesc e (sortByAreaDesc rest)

/-- `sortedArea[0].id` of the source: the index of the chosen quadrant. -/
def qIndexOf (x y width height screenWidth screenHeight : ℚ) : ℕ :=
  ((sortByAreaDesc (quadrantAreas x y width height screenWidth screenHeight)).headD
    ⟨0, 0⟩).id

/-- First maximum of a nonempty list (head `e`, tail `l`): the earliest entry
whose area is maximal. -/
def firstMax (e : AreaEntry) : List AreaEntry → AreaEntry
  | [] => e
  | f :: r => if (firstMax f r).area ≤ e.area then e else firstMax f r

theorem insertByAreaDesc_ne_nil (e : AreaEntry) (s : List AreaEntry) :
    insertByAreaDesc e s ≠ [] := by
  cases s with
  | nil => simp [insertByAreaDesc]
  | cons f rest =>
    simp only [insertByAreaDesc]
    split <;> simp

/-- The head of the stable descending sort is the earliest maximal entry. -/
theorem sortByAreaDesc_headD (e : AreaEntry) (l : List AreaEntry) (d : AreaEntry) :
    (sortByAreaDesc (e :: l)).headD d = firstMax e l := by
  induction l generalizing e with
  | nil => rfl
  | cons f r ih =>
    cases hs : sortByAreaDesc (f :: r) with
    | nil =>
      exact absurd hs (by
        simpa [sortByAreaDesc] using insertByAreaDesc_ne_nil f (sortByAreaDesc r))
    | cons g s' =>
      have hg : g = firstMax f r := by
        have h2 := ih f
        rw [hs] at h2
        simpa using h2
      show (insertByAreaDesc e (sortByAreaDesc (f :: r))).headD d = firstMax e (f :: r)
      rw [hs]
      simp only [insertByAreaDesc]
      by_cases hc : g.area ≤ e.area
      · rw [if_pos hc]
        simp only [List.headD_cons, firstMax]
        rw [← hg, if_pos hc]
      · rw [if_neg hc]
        simp only [List.headD_cons, firstMax]
        rw [← hg, if_neg hc]

/-- Area lookup by index in a four-entry quadrant list. -/
def area4 (a0 a1 a2 a3 : ℚ) : ℕ → ℚ
  | 0 => a0
  | 1 => a1
  | 2 => a2
  | 3 => a3
  | _ => 0

/-- The `i`-th area in the source's `areas` array (default `0` out of range). -/
def areaQ (x y width height screenWidth screenHeight : ℚ) (i : ℕ) : ℚ :=
  (((quadrantAreas x y width height screenWidth screenHeight).getD i ⟨0, 0⟩)).area

theorem getD_areaEntry (A0 A1 A2 A3 : ℚ) (j : ℕ) :
    (([⟨A0, 0⟩, ⟨A1, 1⟩, ⟨A2, 2⟩, ⟨A3, 3⟩] : List AreaEntry).getD j ⟨0, 0⟩).area
      = area4 A0 A1 A2 A3 j := by
  rcases j with _ | _ | _ | _ | j <;> rfl

/-- The selected index of a four-entry list is the earliest index of maximal
area: it is `< 4`, its area dominates all four, and it strictly dominates every
earlier index. -/
theorem firstMax_four (a0 a1 a2 a3 : ℚ) :
    (firstMax ⟨a0, 0⟩ [⟨a1, 1⟩, ⟨a2, 2⟩, ⟨a3, 3⟩]).id < 4 ∧
    (∀ j, j < 4 →
      area4 a0 a1 a2 a3 j
        ≤ area4 a0 a1 a2 a3 (firstMax ⟨a0, 0⟩ [⟨a1, 1⟩, ⟨a2, 2⟩, ⟨a3, 3⟩]).id) ∧
    (∀ j, j < (firstMax ⟨a0, 0⟩ [⟨a1, 1⟩, ⟨a2, 2⟩, ⟨a3, 3⟩]).id →
      area4 a0 a1 a2 a3 j
        < area4 a0 a1 a2 a3 (firstMax ⟨a0, 0⟩ [⟨a1, 1⟩, ⟨a2, 2⟩, ⟨a3, 3⟩]).id) := by
  simp only [firstMax]
  rcases le_or_lt a3 a2 with h32 | h32
  · have h32' := h32
    rcases le_or_lt a2 a1 with h21 | h21
    · rcases le_or_lt a1 a0 with h10 | h10
      · simp only [h32, if_true, h21, h10, if_pos]
        refine ⟨by norm_num, ?_, ?_⟩
        · intro j hj
          interval_cases j <;> simp [area4] <;> linarith
        · intro j hj
          simp [area4] at hj
      · have h10' : ¬a1 ≤ a0 := not_le.mpr h10
        simp only [h32, if_true, h21, if_pos, h10', if_false]
        refine ⟨by norm_num, ?_, ?_⟩
        · intro j hj
          interval_cases j <;> simp [area4] <;> linarith
        · intro j hj
          interval_cases j <;> simp [area4] <;> linarith
    · have h21' : ¬a2 ≤ a1 := not_le.mpr h21
      simp only [h32, if_true, h21', if_false, if_pos]
      rcases le_or_lt a2 a0 with h20 | h20
      · simp only [h20, if_true, if_pos]
        refine ⟨by norm_num, ?_, ?_⟩
        · intro j hj
          interval_cases j <;> simp [area4] <;> linarith
        · intro j hj
          simp [area4] at hj
      · have h20' : ¬a2 ≤ a0 := not_le.mpr h20
        simp only [h20', if_false]
        refine ⟨by norm_num, ?_, ?_⟩
        · intro j hj
          interval_cases j <;> simp [area4] <;> linarith
        · intro j hj
          interval_cases j <;> simp [area4] <;> linarith
  · have h32' : ¬a3 ≤ a2 := not_le.mpr h32
    rcases le_or_lt a3 a1 with h31 | h31
    · rcases le_or_lt a1 a0 with h10 | h10
      · simp only [h32', if_false, h31, if_true, h10, if_pos]
        refine ⟨by norm_num, ?_, ?_⟩
        · intro j hj
          interval_cases j <;> simp [area4] <;> linarith
        · intro j hj
          simp [area4] at hj
      · have h10' : ¬a1 ≤ a0 := not_le.mpr h10
        simp only [h32', if_false, h31, if_true, h10', if_pos]
        refine ⟨by norm_num, ?_, ?_⟩
        · intro j hj
          interval_cases j <;> simp [area4] <;> linarith
        · intro j hj
          interval_cases j <;> simp [area4] <;> linarith
    · have h31' : ¬a3 ≤ a1 := not_le.mpr h31
      simp only [h32', if_false, h31', if_pos]
      rcases le_or_lt a3 a0 with h30 | h30
      · simp only [h30, if_true, if_pos]
        refine ⟨by norm_num, ?_, ?_⟩
        · intro j hj
          interval_cases j <;> simp [area4] <;> linarith
        · intro j hj
          simp [area4] at hj
      · have h30' : ¬a3 ≤ a0 := not_le.mpr h30
        simp only [h30', if_false]
        refine ⟨by norm_num, ?_, ?_⟩
        · intro j hj
          interval_cases j <;> simp [area4] <;> linarith
        · intro j hj
          interval_cases j <;> simp [area4] <;> linarith

/-- `directionCorrection` from the source: the displacement signs of the four
quadrants, `[[-1,-1],[1,-1],[1,1],[-1,1]]`. -/
def directionCorrection : List (ℚ × ℚ) :=
  [(-1, -1), (1, -1), (1, 1), (-1, 1)]

/-- `displaceReferencePoint` from the source: the reference-point shift of the
four quadrants, `[[-tooltipWidth,0],[0,0],[0,0],[-tooltipWidth,0]]`. -/
def displaceReferencePoint (tooltipWidth : ℚ) : List (ℚ × ℚ) :=
  [(-tooltipWidth, 0), (0, 0), (0, 0), (-tooltipWidth, 0)]

/-- The `newX` of `getTooltipCoordinate`: `getWithPointerOffsetX() +
(dX · direction + displace)` with `dX = 0.001`. -/
def newXOf (x y width height screenWidth screenHeight tooltipWidth : ℚ)
    (withPointer : Bool) : ℚ :=
  let center1 := x + width / 2
  let qIndex := qIndexOf x y width height screenWidth screenHeight
  let dir := (directionCorrection.getD qIndex (0, 0)).1
  let disp := ((displaceReferencePoint tooltipWidth).getD qIndex (0, 0)).1
  (if withPointer then center1 - 18 * dir else center1) + (1 / 1000 * dir + disp)

/-- The `y` of `getTooltipCoordinate`: `center[1] + (dY · direction + displace) +
getWithPointerOffsetY()` with `dY = height / 2`. -/
def tooltipYOf (x y width height screenWidth screenHeight tooltipWidth : ℚ)
    (withPointer : Bool) : ℚ :=
  let center2 := y + height / 2
  let qIndex := qIndexOf x y width height screenWidth screenHeight
  let dir := (directionCorrection.getD qIndex (0, 0)).2
  let disp := ((displaceReferencePoint tooltipWidth).getD qIndex (0, 0)).2
  center2 + (height / 2 * dir + disp) + (if withPointer then 10 * dir else 0)

/-- Embeds `constraintX` from `getTooltipCoordinate.ts` (the `_x` center argument
is unused in the source and omitted). -/
def constraintX (newX : ℚ) (qIndex : ℕ) (screenWidth tooltipWidth : ℚ) : ℚ :=
  match qIndex with
  | 0 | 3 =>
    let maxWidth := if screenWidth < newX then screenWidth - 10 else newX
    if newX < 1 then 10 else maxWidth
  | 1 | 2 =>
    let leftOverSpace := screenWidth - newX
    if tooltipWidth ≤ leftOverSpace then newX
    else newX - (tooltipWidth - leftOverSpace + 10)
  | _ => 0

/-- The body of `getTooltipCoordinate` after the tooltip width has been resolved
to a number: quadrant selection, displacement and `constraintX` clamping. -/
def getTooltipCoordinateCore (x y width height screenWidth screenHeight tooltipWidth : ℚ)
    (withPointer : Bool) : ℚ × ℚ :=
  (constraintX (newXOf x y width height screenWidth screenHeight tooltipWidth withPointer)
      (qIndexOf x y width height screenWidth screenHeight) screenWidth tooltipWidth,
    tooltipYOf x y width height screenWidth screenHeight tooltipWidth withPointer)

/-- Embeds `getTooltipCoordinate`: the received width is resolved against the
ambient window width (`Dimensions.get('window').width`, passed explicitly);
`none` models the `NaN` coordinates the source produces when the resolution
yields `NaN`. -/
def getTooltipCoordinate (x y width height screenWidth screenHeight : ℚ)
    (receivedTooltipWidth : Dim) (withPointer : Bool) (windowWidth : ℚ) :
    Option (ℚ × ℚ) :=
  (convertDimensionToNumber receivedTooltipWidth windowWidth).map
    (fun tooltipWidth =>
      getTooltipCoordinateCore x y width height screenWidth screenHeight tooltipWidth
        withPointer)

/-! ## Spec-side quadrant areas (for the refinement claim C2) -/

/-- The anchor's center point `c = (x + width/2, y + height/2)`. -/
def centerPt (x y width height : ℚ) : ℚ × ℚ :=
  (x + width / 2, y + height / 2)

/-- Quadrant areas exactly as the spec words them: products of the Euclidean
distances from the center to the two adjacent edge-projection points (top edge
`(c.x, 0)`, right edge `(W, c.y)`, bottom edge `(c.x, H)`, left edge `(0, c.y)`),
in the declaration order top-left, top-right, bottom-right, bottom-left. -/
noncomputable def specQuadrantArea (x y width height screenWidth screenHeight : ℚ) :
    ℕ → ℝ := fun i =>
  let c := centerPt x y width height
  match i with
  | 0 => euclid c (c.1, 0) * euclid c (0, c.2)
  | 1 => euclid c (c.1, 0) * euclid c (screenWidth, c.2)
  | 2 => euclid c (screenWidth, c.2) * euclid c (c.1, screenHeight)
  | 3 => euclid c (c.1, screenHeight) * euclid c (0, c.2)
  | _ => 0

/-- The chosen quadrant index is in range, its (rational) area dominates all
four, and it strictly dominates every earlier index. -/
theorem qIndexOf_spec (x y width height screenWidth screenHeight : ℚ) :
    qIndexOf x y width height screenWidth screenHeight < 4 ∧
    (∀ j, j < 4 →
      areaQ x y width height screenWidth screenHeight j
        ≤ areaQ x y width height screenWidth screenHeight
            (qIndexOf x y width height screenWidth screenHeight)) ∧
    (∀ j, j < qIndexOf x y width height screenWidth screenHeight →
      areaQ x y width height screenWidth screenHeight j
        < areaQ x y width height screenWidth screenHeight
            (qIndexOf x y width height screenWidth screenHeight)) := by
  obtain ⟨A0, A1, A2, A3, hQ⟩ :
      ∃ A0 A1 A2 A3, quadrantAreas x y width height screenWidth screenHeight
        = [⟨A0, 0⟩, ⟨A1, 1⟩, ⟨A2, 2⟩, ⟨A3, 3⟩] := ⟨_, _, _, _, rfl⟩
  have hq : qIndexOf x y width height screenWidth screenHeight
      = (firstMax ⟨A0, 0⟩ [⟨A1, 1⟩, ⟨A2, 2⟩, ⟨A3, 3⟩]).id := by
    rw [qIndexOf, hQ]
    exact congrArg AreaEntry.id (sortByAreaDesc_headD _ _ _)
  have ha : ∀ j, areaQ x y width height screenWidth screenHeight j = area4 A0 A1 A2 A3 j := by
    intro j
    rw [areaQ, hQ, getD_areaEntry]
  obtain ⟨h1, h2, h3⟩ := firstMax_four A0 A1 A2 A3
  refine ⟨by rw [hq]; exact h1, ?_, ?_⟩
  · intro j hj
    rw [ha, hq, ha]
    exact h2 j hj
  · intro j hj
    rw [hq] at hj
    rw [ha, hq, ha]
    exact h3 j hj

/-- For indices in range, the spec-side Euclidean quadrant area is exactly the
cast of the source's rational area. -/
theorem specArea_eq_cast (x y width height screenWidth screenHeight : ℚ) (i : ℕ)
    (hi : i < 4) :
    specQuadrantArea x y width height screenWidth screenHeight i
      = ((areaQ x y width height screenWidth screenHeight i : ℚ) : ℝ) := by
  interval_cases i <;>
    · simp only [specQuadrantArea, centerPt, areaQ, quadrantAreas, getArea, List.getD_cons_zero,
        List.getD_cons_succ]
      push_cast
      rw [getPointDistance_eq_euclid, getPointDistance_eq_euclid]
      all_goals first
        | exact Or.inl rfl
        | exact Or.inr rfl

/-! ## `Tooltip.tsx`: tooltip style (RTL mirroring, top/bottom anchoring) -/

/-- The placement-relevant fields of the style object built by `getTooltipStyle`
in `Tooltip.tsx`, together with the `pastMiddleLine` flag it returns. -/
structure TooltipStyleOut where
  left : Option ℚ
  right : Option ℚ
  top : Option ℚ
  bottom : Option ℚ
  pastMiddleLine : Bool
deriving DecidableEq

/-- Embeds `getTooltipStyle` from `Tooltip.tsx`: computes the coordinate, routes
`x` to `left` (LTR) or `right` (RTL), sets `pastMiddleLine = yOffset > y`, and
anchors vertically: non-numeric height past the midline uses a bottom anchor,
numeric height past the midline uses `top = y - height + statusBarOffset`, and
otherwise `top = y + statusBarOffset`.  `none` models the `NaN` case. -/
def getTooltipStyle (isRTL : Bool)
    (xOffset yOffset elementWidth elementHeight screenWidth screenHeight : ℚ)
    (width height : Dim) (withPointer : Bool) (statusBarOffset windowWidth : ℚ) :
    Option TooltipStyleOut :=
  (getTooltipCoordinate xOffset yOffset elementWidth elementHeight screenWidth screenHeight
      width withPointer windowWidth).map
    (fun coord =>
      let x := coord.1
      let y := coord.2
      let l : Option ℚ := if isRTL then none else some x
      let r : Option ℚ := if isRTL then some x else none
      match height, decide (yOffset > y) with
      | Dim.str _, true => ⟨l, r, none, some (screenHeight - y - statusBarOffset), true⟩
      | Dim.num hv, true => ⟨l, r, some (y - hv + statusBarOffset), none, true⟩
      | _, false => ⟨l, r, some (y + statusBarOffset), none, false⟩)

/-- Modelled from the spec: the effective left edge of the popover.  The spec
says that under RTL "quantities computed as left-side offset are instead applied
as right-side offset", so a view anchored by `right = r` with width `w` on a
viewport of width `W` has its left edge at `W - r - w`; a view anchored by
`left = l` has it at `l`. -/
def effectiveLeftEdge (s : TooltipStyleOut) (screenWidth popoverWidth : ℚ) : ℚ :=
  match s.left with
  | some l => l
  | none => screenWidth - s.right.getD 0 - popoverWidth

/-! ## `Tooltip.tsx`: the visibility controller's trigger operation -/

/-- The construction-time visibility configuration of the widget: the optional
external `isVisible` prop.  Supplying it selects Controlled mode for the whole
lifetime (props are fixed at construction in this embedding). -/
structure TooltipProps where
  isVisibleProp : Option Bool
deriving DecidableEq

/-- Observable calls the trigger operation makes: the anchor re-measurement
request (`getElementPosition`), the `onVisibilityChange` notification, and the
`onClose` callback. -/
inductive Emit where
  | measure
  | visChange (b : Bool)
  | close
deriving DecidableEq

/-- `isControlled` from `Tooltip.tsx`: `isVisibleProp !== undefined`. -/
def isControlled (p : TooltipProps) : Bool :=
  p.isVisibleProp.isSome

/-- `isVisible` from `Tooltip.tsx`: the external value in Controlled mode, the
internal boolean otherwise. -/
def currentVisible (p : TooltipProps) (internalVisible : Bool) : Bool :=
  match p.isVisibleProp with
  | some b => b
  | none => internalVisible

/-- Embeds `toggleTooltip` from `Tooltip.tsx`.  Returns the new internal
visibility boolean and the emitted calls in order: always `measure` first
(`getElementPosition()`); in Controlled mode `onVisibilityChange(!isVisible)`
then `onClose` when the pre-toggle state is visible on a non-iOS platform; in
Uncontrolled mode the internal boolean is flipped and `onClose` fires under the
same condition. -/
def toggleTooltip (p : TooltipProps) (internalVisible : Bool) (ios : Bool) :
    Bool × List Emit :=
  if isControlled p then
    let isVisible := currentVisible p internalVisible
    (internalVisible,
      [Emit.measure, Emit.visChange (!isVisible)]
        ++ (if isVisible && !ios then [Emit.close] else []))
  else
    (!internalVisible,
      [Emit.measure] ++ (if internalVisible && !ios then [Emit.close] else []))

/-! ## Helper lemmas on the displacement step -/

theorem dispY_zero (tooltipWidth : ℚ) (q : ℕ) :
    ((displaceReferencePoint tooltipWidth).getD q (0, 0)).2 = 0 := by
  rcases q with _ | _ | _ | _ | q <;> rfl

/-- `newX` in closed form: reference point (`center.x` shifted by
`displaceReferencePoint`) plus the epsilon in the quadrant's horizontal sign,
minus the 18-unit pointer clearance in that same sign when the pointer is on. -/
theorem newXOf_eq (x y width height screenWidth screenHeight tooltipWidth : ℚ)
    (withPointer : Bool) :
    newXOf x y width height screenWidth screenHeight tooltipWidth withPointer
      = (x + width / 2
          + ((displaceReferencePoint tooltipWidth).getD
              (qIndexOf x y width height screenWidth screenHeight) (0, 0)).1)
        + 1 / 1000 * (directionCorrection.getD
            (qIndexOf x y width height screenWidth screenHeight) (0, 0)).1
        - (if withPointer then
            18 * (directionCorrection.getD
              (qIndexOf x y width height screenWidth screenHeight) (0, 0)).1
          else 0) := by
  cases withPointer <;> simp [newXOf] <;> ring

/-- The `y` coordinate in closed form: the anchor's center `y` plus half the
anchor height in the quadrant's vertical sign, plus the 10-unit pointer
clearance in that same sign when the pointer is on. -/
theorem tooltipYOf_eq (x y width height screenWidth screenHeight tooltipWidth : ℚ)
    (withPointer : Bool) :
    tooltipYOf x y width height screenWidth screenHeight tooltipWidth withPointer
      = y + height / 2
        + height / 2 * (directionCorrection.getD
            (qIndexOf x y width height screenWidth screenHeight) (0, 0)).2
        + (if withPointer then
            10 * (directionCorrection.getD
              (qIndexOf x y width height screenWidth screenHeight) (0, 0)).2
          else 0) := by
  cases withPointer <;>
    simp only [tooltipYOf, dispY_zero, Bool.false_eq_true, if_false, if_true,
      eq_self_iff_true] <;>
    ring

/-! ## Claim C1 -/

/-- Claim C1, counterexample: the boundary invariant `x ≥ 0` fails as stated.
Anchor position `(0,0)` lies within the `800 × 1000` viewport and the popover
width `150 ≤ 800`, yet the clamped x is `-17.999 < 0` (the 18-unit pointer
clearance pushes x negative and the right-side clamp leaves it untouched). -/
theorem clampingFailsAtOrigin :
    (getTooltipCoordinateCore 0 0 0 0 800 1000 150 true).1 = -(17999 / 1000) ∧
    (getTooltipCoordinateCore 0 0 0 0 800 1000 150 true).1 < 0 := by
  norm_num [getTooltipCoordinateCore, newXOf, tooltipYOf, qIndexOf, quadrantAreas,
    getPointDistance, getArea, sortByAreaDesc, insertByAreaDesc, directionCorrection,
    displaceReferencePoint, constraintX]

/-- Claim C1, amended: for every anchor lying horizontally within the viewport
(`0 ≤ x`, `0 ≤ width`, `x + width ≤ viewportWidth`) and every popover width `w`
with `0 ≤ w ≤ viewportWidth − 10`, when `withPointer` is `false` the x returned
after the `constraintX` clamping step satisfies `x ≥ 0` and
`x + w ≤ viewportWidth`. -/
theorem clampedXWithinViewport (x y width height screenWidth screenHeight tooltipWidth : ℚ)
    (hx : 0 ≤ x) (hw : 0 ≤ width) (hxw : x + width ≤ screenWidth)
    (ht0 : 0 ≤ tooltipWidth) (ht : tooltipWidth ≤ screenWidth - 10) :
    0 ≤ (getTooltipCoordinateCore x y width height screenWidth screenHeight
          tooltipWidth false).1 ∧
    (getTooltipCoordinateCore x y width height screenWidth screenHeight
        tooltipWidth false).1 + tooltipWidth ≤ screenWidth := by
  have h4 := (qIndexOf_spec x y width height screenWidth screenHeight).1
  have hc0 : 0 ≤ x + width / 2 := by linarith
  have hc1 : x + width / 2 ≤ screenWidth := by linarith
  simp only [getTooltipCoordinateCore, newXOf]
  generalize hqe : qIndexOf x y width height screenWidth screenHeight = q at h4 ⊢
  have hcases : q = 0 ∨ q = 1 ∨ q = 2 ∨ q = 3 := by omega
  rcases hcases with rfl | rfl | rfl | rfl <;>
    · simp only [Bool.false_eq_true, if_false, directionCorrection, displaceReferencePoint,
        List.getD_cons_zero, List.getD_cons_succ, constraintX]
      split_ifs <;> constructor <;> linarith

/-- Claim C1, amended, witness at anchor `(20, 500, 100, 40)`, viewport
`800 × 1000`, popover width `150`. -/
theorem clampedXWithinViewport_witness :
    0 ≤ (getTooltipCoordinateCore 20 500 100 40 800 1000 150 false).1 ∧
    (getTooltipCoordinateCore 20 500 100 40 800 1000 150 false).1 + 150 ≤ 800 :=
  clampedXWithinViewport 20 500 100 40 800 1000 150 (by norm_num) (by norm_num)
    (by norm_num) (by norm_num) (by norm_num)

/-! ## Claim C2 -/

/-- Claim C2, confirmed: `getTooltipCoordinate` selects the quadrant whose area
— the product of the Euclidean distances from the anchor's center to the two
adjacent edge-projection points, in the declaration order top-left, top-right,
bottom-right, bottom-left — is largest, and on ties the earliest-declared
quadrant wins: the selected index is in range, its area dominates all four, and
it strictly dominates every earlier-declared quadrant. -/
theorem quadrantSelectionMaximizesEuclideanArea
    (x y width height screenWidth screenHeight : ℚ) :
    qIndexOf x y width height screenWidth screenHeight < 4 ∧
    (∀ j, j < 4 →
      specQuadrantArea x y width height screenWidth screenHeight j
        ≤ specQuadrantArea x y width height screenWidth screenHeight
            (qIndexOf x y width height screenWidth screenHeight)) ∧
    (∀ j, j < qIndexOf x y width height screenWidth screenHeight →
      specQuadrantArea x y width height screenWidth screenHeight j
        < specQuadrantArea x y width height screenWidth screenHeight
            (qIndexOf x y width height screenWidth screenHeight)) := by
  obtain ⟨h1, h2, h3⟩ := qIndexOf_spec x y width height screenWidth screenHeight
  refine ⟨h1, ?_, ?_⟩
  · intro j hj
    rw [specArea_eq_cast _ _ _ _ _ _ j hj, specArea_eq_cast _ _ _ _ _ _ _ h1, Rat.cast_le]
    exact h2 j hj
  · intro j hj
    rw [specArea_eq_cast _ _ _ _ _ _ j (hj.trans h1), specArea_eq_cast _ _ _ _ _ _ _ h1,
      Rat.cast_lt]
    exact h3 j hj

/-- Claim C2, witness at the concrete anchor `(20, 500, 100, 40)` in an
`800 × 1000` viewport. -/
theorem quadrantSelectionMaximizesEuclideanArea_witness :
    qIndexOf 20 500 100 40 800 1000 < 4 ∧
    specQuadrantArea 20 500 100 40 800 1000 0
      ≤ specQuadrantArea 20 500 100 40 800 1000 (qIndexOf 20 500 100 40 800 1000) :=
  ⟨(quadrantSelectionMaximizesEuclideanArea 20 500 100 40 800 1000).1,
    (quadrantSelectionMaximizesEuclideanArea 20 500 100 40 800 1000).2.1 0 (by norm_num)⟩

/-! ## Claim C6 -/

/-- Claim C6: the code does not fail fast on malformed width strings.  A
percentage string with a non-numeric part (`'abc%'`) and a non-numeric
non-percentage string (`'auto'`) both resolve to `NaN` (modelled `none`), and
the `NaN` propagates into `getTooltipCoordinate`'s output instead of being
rejected at configuration-validation time. -/
theorem malformedWidthYieldsNaN :
    convertDimensionToNumber (Dim.str "abc%".toList) 800 = none ∧
    convertDimensionToNumber (Dim.str "auto".toList) 800 = none ∧
    getTooltipCoordinate 20 500 100 40 800 1000 (Dim.str "abc%".toList) true 800 = none := by
  refine ⟨by decide, by decide, by decide⟩

/-! ## Claim C7 -/

/-- Claim C7, counterexample: with the pointer on, the 18-unit clearance is
applied *against* the quadrant's horizontal sign, not in it.  At anchor
`(0,0,0,0)` in an `800 × 1000` viewport the chosen quadrant is bottom-right
(horizontal sign `+1`) and the pre-clamp x sits `17.999` to the *left* of the
reference point, not `18.001` to the right as the claim predicts. -/
theorem pointerOffsetSignCounterexample :
    qIndexOf 0 0 0 0 800 1000 = 2 ∧
    (directionCorrection.getD (qIndexOf 0 0 0 0 800 1000) (0, 0)).1 = 1 ∧
    ((displaceReferencePoint (150 : ℚ)).getD (qIndexOf 0 0 0 0 800 1000) (0, 0)).1 = 0 ∧
    newXOf 0 0 0 0 800 1000 150 true = -(17999 / 1000) ∧
    ¬ (newXOf 0 0 0 0 800 1000 150 true - ((0 : ℚ) + 0 / 2 + 0)
        = 1 / 1000 * 1 + 18 * 1) := by
  norm_num [newXOf, qIndexOf, quadrantAreas, getPointDistance, getArea, sortByAreaDesc,
    insertByAreaDesc, directionCorrection, displaceReferencePoint]

/-- Claim C7, amended: the pre-clamp x is displaced from the reference point
(center.x plus the `displaceReferencePoint` shift) by the epsilon `0.001` in
the quadrant's horizontal sign, *minus* the 18-unit pointer clearance in that
sign when `withPointer` is `true`; the y is displaced from the anchor's center
by half the anchor height in the quadrant's vertical sign, plus the 10-unit
pointer clearance in that same vertical sign exactly when `withPointer` is
`true`. -/
theorem displacementStructure (x y width height screenWidth screenHeight tooltipWidth : ℚ)
    (withPointer : Bool) :
    newXOf x y width height screenWidth screenHeight tooltipWidth withPointer
      = (x + width / 2
          + ((displaceReferencePoint tooltipWidth).getD
              (qIndexOf x y width height screenWidth screenHeight) (0, 0)).1)
        + 1 / 1000 * (directionCorrection.getD
            (qIndexOf x y width height screenWidth screenHeight) (0, 0)).1
        - (if withPointer then
            18 * (directionCorrection.getD
              (qIndexOf x y width height screenWidth screenHeight) (0, 0)).1
          else 0) ∧
    tooltipYOf x y width height screenWidth screenHeight tooltipWidth withPointer
      = y + height / 2
        + height / 2 * (directionCorrection.getD
            (qIndexOf x y width height screenWidth screenHeight) (0, 0)).2
        + (if withPointer then
            10 * (directionCorrection.getD
              (qIndexOf x y width height screenWidth screenHeight) (0, 0)).2
          else 0) :=
  ⟨newXOf_eq x y width height screenWidth screenHeight tooltipWidth withPointer,
    tooltipYOf_eq x y width height screenWidth screenHeight tooltipWidth withPointer⟩

/-! ## Claim C3 -/

/-- Claim C3, counterexample: for anchor `{x:20, y:500, width:100, height:40}`
in an `800 × 1000` viewport with popover width `150` and the pointer on, the
top-right quadrant (index 1) wins — not bottom-left — because relative to
center `(70, 520)` its area `520 · 730 = 379600` dominates the bottom-left
area `480 · 70 = 33600`; the returned y is `490`, not `≈ 550`, and
`pastMiddleLine` is `true`, not `false`. -/
theorem concreteScenarioContradiction :
    qIndexOf 20 500 100 40 800 1000 = 1 ∧
    areaQ 20 500 100 40 800 1000 1 = 379600 ∧
    areaQ 20 500 100 40 800 1000 3 = 33600 ∧
    getTooltipCoordinateCore 20 500 100 40 800 1000 150 true = (52001 / 1000, 490) ∧
    (getTooltipStyle false 20 500 100 40 800 1000 (Dim.num 150) (Dim.num 40) true 0 800).map
        TooltipStyleOut.pastMiddleLine = some true ∧
    ((490 : ℚ) ≠ 550) := by
  norm_num [getTooltipStyle, getTooltipCoordinate, getTooltipCoordinateCore,
    convertDimensionToNumber, newXOf, tooltipYOf, qIndexOf, areaQ, quadrantAreas,
    getPointDistance, getArea, sortByAreaDesc, insertByAreaDesc, directionCorrection,
    displaceReferencePoint, constraintX, Option.map]

/-- Claim C3, amended: for that input the top-right quadrant dominates, so the
result is `x = 52.001 = 70 − 18 + 0.001` (displaced leftward by the pointer
clearance, within `[10, 650]`) and `y = 490 = 520 − 20 − 10` (the popover sits
above the anchor), with `pastMiddleLine = true`. -/
theorem concreteScenarioActual :
    qIndexOf 20 500 100 40 800 1000 = 1 ∧
    getTooltipCoordinateCore 20 500 100 40 800 1000 150 true = (52001 / 1000, 490) ∧
    (52001 / 1000 : ℚ) = 70 - 18 + 1 / 1000 ∧
    (10 : ℚ) ≤ 52001 / 1000 ∧ (52001 / 1000 : ℚ) ≤ 650 ∧
    (490 : ℚ) = 520 - 40 / 2 - 10 ∧
    (getTooltipStyle false 20 500 100 40 800 1000 (Dim.num 150) (Dim.num 40) true 0 800).map
        TooltipStyleOut.pastMiddleLine = some true := by
  norm_num [getTooltipStyle, getTooltipCoordinate, getTooltipCoordinateCore,
    convertDimensionToNumber, newXOf, tooltipYOf, qIndexOf, quadrantAreas,
    getPointDistance, getArea, sortByAreaDesc, insertByAreaDesc, directionCorrection,
    displaceReferencePoint, constraintX, Option.map]

/-! ## Claim C4 -/

/-- Claim C4, confirmed: the mode (Controlled iff an external visibility value
was supplied) is a pure function of the construction-time props, which never
change in this embedding; in Controlled mode `toggleTooltip` leaves the
internal visibility boolean untouched (it only emits a change request), and in
Uncontrolled mode no `onVisibilityChange` notification is ever emitted. -/
theorem controlledUncontrolledExclusive (p : TooltipProps) (internalVisible ios : Bool) :
    (isControlled p = true →
      (toggleTooltip p internalVisible ios).1 = internalVisible) ∧
    (isControlled p = false →
      ∀ b, Emit.visChange b ∉ (toggleTooltip p internalVisible ios).2) := by
  constructor
  · intro h
    simp [toggleTooltip, h]
  · intro h b
    simp only [toggleTooltip, h, Bool.false_eq_true, if_false]
    split_ifs <;> simp

/-- Claim C4, witness: a controlled widget (`isVisible = some true`) keeps its
internal boolean, and an uncontrolled one emits no visibility notification. -/
theorem controlledUncontrolledExclusive_witness :
    (toggleTooltip ⟨some true⟩ false false).1 = false ∧
    Emit.visChange true ∉ (toggleTooltip ⟨none⟩ true false).2 :=
  ⟨(controlledUncontrolledExclusive ⟨some true⟩ false false).1 rfl,
    (controlledUncontrolledExclusive ⟨none⟩ true false).2 rfl true⟩

/-! ## Claim C5 -/

/-- Claim C5, confirmed: every `toggleTooltip` invocation emits the anchor
re-measurement request first; in Controlled mode it then emits
`onVisibilityChange` with the negation of the current visibility, followed by
`onClose` exactly when the pre-toggle state was visible on a non-iOS platform
(the explicit call is skipped on iOS, whose modal dismissal already fires it);
in Uncontrolled mode it flips the internal boolean and fires `onClose` under
the same pre-toggle-visible / non-iOS condition. -/
theorem toggleTooltipBehavior (p : TooltipProps) (internalVisible ios : Bool) :
    (toggleTooltip p internalVisible ios).2.head? = some Emit.measure ∧
    (isControlled p = true →
      (toggleTooltip p internalVisible ios).1 = internalVisible ∧
      (toggleTooltip p internalVisible ios).2
        = [Emit.measure, Emit.visChange (!currentVisible p internalVisible)]
            ++ (if currentVisible p internalVisible && !ios then [Emit.close] else [])) ∧
    (isControlled p = false →
      (toggleTooltip p internalVisible ios).1 = !internalVisible ∧
      (toggleTooltip p internalVisible ios).2
        = [Emit.measure] ++ (if internalVisible && !ios then [Emit.close] else [])) := by
  refine ⟨?_, fun h => ?_, fun h => ?_⟩
  · by_cases h : isControlled p <;> simp [toggleTooltip, h]
  · simp [toggleTooltip, h]
  · simp [toggleTooltip, h]

/-- Claim C5, witness: a controlled visible widget on a non-iOS platform emits
measure, then the flip request, then `onClose`; an uncontrolled visible one on
iOS flips its boolean and skips the explicit `onClose`. -/
theorem toggleTooltipBehavior_witness :
    (toggleTooltip ⟨some true⟩ false false).2.head? = some Emit.measure ∧
    (toggleTooltip ⟨some true⟩ false false).2
      = [Emit.measure, Emit.visChange (!currentVisible ⟨some true⟩ false)]
          ++ (if currentVisible ⟨some true⟩ false && !false then [Emit.close] else []) ∧
    (toggleTooltip ⟨none⟩ true true).1 = !true ∧
    (toggleTooltip ⟨none⟩ true true).2
      = [Emit.measure] ++ (if true && !true then [Emit.close] else []) :=
  ⟨(toggleTooltipBehavior ⟨some true⟩ false false).1,
    ((toggleTooltipBehavior ⟨some true⟩ false false).2.1 rfl).2,
    ((toggleTooltipBehavior ⟨none⟩ true true).2.2 rfl).1,
    ((toggleTooltipBehavior ⟨none⟩ true true).2.2 rfl).2⟩

/-! ## Claim C8 -/

/-- Claim C8, confirmed: the RTL placement is the mirror image of the LTR
placement.  The style routes the same computed x to `right` under RTL instead
of `left`, so the popover's effective left edge under RTL is exactly
`W − ltr_x − popoverWidth`. -/
theorem rtlMirrorsLtr (xOffset yOffset elementWidth elementHeight screenWidth screenHeight
    tooltipWidth statusBarOffset windowWidth : ℚ) (height : Dim) (withPointer : Bool) :
    (getTooltipStyle true xOffset yOffset elementWidth elementHeight screenWidth screenHeight
        (Dim.num tooltipWidth) height withPointer statusBarOffset windowWidth).map
      (fun s => effectiveLeftEdge s screenWidth tooltipWidth)
    = (getTooltipStyle false xOffset yOffset elementWidth elementHeight screenWidth
        screenHeight (Dim.num tooltipWidth) height withPointer statusBarOffset
        windowWidth).map
      (fun s => screenWidth - effectiveLeftEdge s screenWidth tooltipWidth
        - tooltipWidth) := by
  rcases height with hv | s <;>
    rcases hdm : decide (yOffset > (getTooltipCoordinateCore xOffset yOffset elementWidth
      elementHeight screenWidth screenHeight tooltipWidth withPointer).2) <;>
    simp [getTooltipStyle, getTooltipCoordinate, convertDimensionToNumber, hdm,
      effectiveLeftEdge]

/-! ## Claim C9 -/

/-- Claim C9, confirmed: on fully degenerate anchor geometry
(`x = y = width = height = 0`) and popover width `0`, `getTooltipCoordinate` is
total — the embedding is a total function, no division is performed on the
degenerate values — the quadrant selection still deterministically picks the
bottom-right quadrant (index 2; its area `W · H` is the only nonzero one), and
the output is an explicit finite coordinate near the screen's top-left corner. -/
theorem degenerateGeometryTotal (screenWidth screenHeight : ℚ) (withPointer : Bool)
    (hW : 1 ≤ screenWidth) (hH : 1 ≤ screenHeight) :
    qIndexOf 0 0 0 0 screenWidth screenHeight = 2 ∧
    getTooltipCoordinateCore 0 0 0 0 screenWidth screenHeight 0 withPointer
      = ((if withPointer then -(17999 / 1000) else 1 / 1000),
          (if withPointer then 10 else 0)) := by
  have hprod : (0 : ℚ) < screenWidth * screenHeight :=
    mul_pos (by linarith) (by linarith)
  have hQ : quadrantAreas 0 0 0 0 screenWidth screenHeight
      = [⟨0, 0⟩, ⟨0, 1⟩, ⟨screenWidth * screenHeight, 2⟩, ⟨0, 3⟩] := by
    simp only [quadrantAreas, getPointDistance, getArea]
    norm_num
    rw [abs_of_nonneg (by linarith : (0 : ℚ) ≤ screenWidth),
      abs_of_nonneg (by linarith : (0 : ℚ) ≤ screenHeight)]
  have hq : qIndexOf 0 0 0 0 screenWidth screenHeight = 2 := by
    rw [qIndexOf, hQ, sortByAreaDesc_headD]
    simp only [firstMax]
    rw [if_pos (le_of_lt hprod), if_neg (not_le.mpr hprod), if_neg (not_le.mpr hprod)]
  refine ⟨hq, ?_⟩
  cases withPointer <;>
    · simp only [getTooltipCoordinateCore, newXOf, tooltipYOf, hq, directionCorrection,
        displaceReferencePoint, List.getD_cons_zero, List.getD_cons_succ, constraintX,
        Bool.false_eq_true, if_false, if_true, eq_self_iff_true]
      norm_num
      intro hoverflow
      linarith

/-- Claim C9, witness at an `800 × 1000` viewport with the pointer on. -/
theorem degenerateGeometryTotal_witness :
    qIndexOf 0 0 0 0 800 1000 = 2 ∧
    getTooltipCoordinateCore 0 0 0 0 800 1000 0 true = (-(17999 / 1000), 10) := by
  have h := degenerateGeometryTotal 800 1000 true (by norm_num) (by norm_num)
  simpa using h

/-! ## Claim C10 -/

/-- Claim C10, confirmed: with the pointer disabled and a nonnegative anchor
height, the returned y is `anchor.y` for the top quadrants (0, 1) and
`anchor.y + height` for the bottom quadrants (2, 3), hence never less than
`anchor.y`; consequently `pastMiddleLine = (anchor.y > y)` is `false` and
`getTooltipStyle` always takes the top-anchored branch
`top = y + statusBarOffset`. -/
theorem noPointerTopAnchored (x y width height screenWidth screenHeight tooltipWidth : ℚ)
    (hh : 0 ≤ height) :
    y ≤ tooltipYOf x y width height screenWidth screenHeight tooltipWidth false ∧
    (qIndexOf x y width height screenWidth screenHeight = 0 ∨
        qIndexOf x y width height screenWidth screenHeight = 1 →
      tooltipYOf x y width height screenWidth screenHeight tooltipWidth false = y) ∧
    (qIndexOf x y width height screenWidth screenHeight = 2 ∨
        qIndexOf x y width height screenWidth screenHeight = 3 →
      tooltipYOf x y width height screenWidth screenHeight tooltipWidth false
        = y + height) ∧
    (∀ (isRTL : Bool) (heightDim : Dim) (statusBarOffset windowWidth : ℚ),
      (getTooltipStyle isRTL x y width height screenWidth screenHeight
          (Dim.num tooltipWidth) heightDim false statusBarOffset windowWidth).map
        (fun s => (s.pastMiddleLine, s.top, s.bottom))
        = some (false,
            some (tooltipYOf x y width height screenWidth screenHeight tooltipWidth false
              + statusBarOffset), none)) := by
  have h4 := (qIndexOf_spec x y width height screenWidth screenHeight).1
  have hyr := tooltipYOf_eq x y width height screenWidth screenHeight tooltipWidth false
  have main : y ≤ tooltipYOf x y width height screenWidth screenHeight tooltipWidth false ∧
      (qIndexOf x y width height screenWidth screenHeight = 0 ∨
          qIndexOf x y width height screenWidth screenHeight = 1 →
        tooltipYOf x y width height screenWidth screenHeight tooltipWidth false = y) ∧
      (qIndexOf x y width height screenWidth screenHeight = 2 ∨
          qIndexOf x y width height screenWidth screenHeight = 3 →
        tooltipYOf x y width height screenWidth screenHeight tooltipWidth false
          = y + height) := by
    rw [hyr]
    generalize hqe : qIndexOf x y width height screenWidth screenHeight = q at h4 ⊢
    have hcases : q = 0 ∨ q = 1 ∨ q = 2 ∨ q = 3 := by omega
    rcases hcases with rfl | rfl | rfl | rfl <;>
      · simp only [directionCorrection, List.getD_cons_zero, List.getD_cons_succ,
          Bool.false_eq_true, if_false]
        refine ⟨by linarith, fun hc => ?_, fun hc => ?_⟩ <;>
          first
          | (rcases hc with hc | hc <;> exact absurd hc (by decide))
          | ring
  refine ⟨main.1, main.2.1, main.2.2, ?_⟩
  intro isRTL heightDim statusBarOffset windowWidth
  have hd : decide (y > tooltipYOf x y width height screenWidth screenHeight
      tooltipWidth false) = false :=
    decide_eq_false (not_lt.mpr main.1)
  rcases heightDim with hv | s <;>
    simp [getTooltipStyle, getTooltipCoordinate, getTooltipCoordinateCore,
      convertDimensionToNumber, hd]

/-- Claim C10, witness at anchor `(20, 500, 100, 40)`, viewport `800 × 1000`,
popover width `150`. -/
theorem noPointerTopAnchored_witness :
    (500 : ℚ) ≤ tooltipYOf 20 500 100 40 800 1000 150 false ∧
    (getTooltipStyle false 20 500 100 40 800 1000 (Dim.num 150) (Dim.num 40) false 0
        800).map (fun s => (s.pastMiddleLine, s.top, s.bottom))
      = some (false, some (tooltipYOf 20 500 100 40 800 1000 150 false + 0), none) :=
  ⟨(noPointerTopAnchored 20 500 100 40 800 1000 150 (by norm_num)).1,
    (noPointerTopAnchored 20 500 100 40 800 1000 150 (by norm_num)).2.2.2 false
      (Dim.num 40) 0 800⟩

end EasyTooltip
